import Mathlib

/-!
Verification of the graphviz DOT-document core.

The file shallowly embeds the repository's code:
* `graphviz/tools.py` (`mapping_items`, `is_iterator`, `is_file_like`) is
  translated directly from the source.
* The document model, quoting engine, attribute formatter and renderer
  (`graphviz/dot.py` / `graphviz/lang.py`) are not part of the available
  sources; those definitions are modelled from the specification and the
  repository's tests, and are marked `Modelled from the spec:` below.
-/

namespace GraphvizSpec

/-! ### tools.py: mapping_items -/

/-- The concrete runtime type of a Python mapping, as far as
`mapping_items` distinguishes them: `type(mapping) is dict` is true only
for `plainDict`; `orderedDict` (`collections.OrderedDict`),
`dictSubclass` (a strict subclass of `dict`, ordered or not) and
`otherMapping` all fail that identity test. -/
inductive PyMappingType where
  | plainDict
  | orderedDict
  | dictSubclass
  | otherMapping
deriving DecidableEq

/-- A Python mapping as seen by `mapping_items`: its concrete type tag
and its (key, value) items in the mapping's own iteration order. -/
structure PyMapping where
  ty : PyMappingType
  items : List (String × String)

/-- Python tuple comparison `(k1, v1) <= (k2, v2)` restricted to pairs of
strings, as used by `sorted` on `mapping.items()`; computed on the
character lists of the strings. -/
def pairLE (p q : String × String) : Bool :=
  if p.1.data < q.1.data then true
  else if p.1 = q.1 then decide (p.2.data ≤ q.2.data)
  else false

/-- The propositional form of `pairLE`, the order `sorted` sorts by. -/
def pairRel (p q : String × String) : Prop := pairLE p q = true

instance : DecidableRel pairRel := fun p q =>
  inferInstanceAs (Decidable (pairLE p q = true))

theorem pairLE_iff (p q : String × String) :
    pairLE p q = true ↔ p.1 < q.1 ∨ (p.1 = q.1 ∧ p.2 ≤ q.2) := by
  unfold pairLE
  split_ifs with h1 h2
  · simp only [true_iff]
    exact Or.inl (String.lt_iff_toList_lt.mpr h1)
  · simp only [decide_eq_true_eq]
    constructor
    · intro hle
      exact Or.inr ⟨h2, String.le_iff_toList_le.mpr hle⟩
    · rintro (hlt | ⟨-, hle⟩)
      · exact absurd (String.lt_iff_toList_lt.mp hlt) h1
      · exact String.le_iff_toList_le.mp hle
  · simp only [false_iff]
    rintro (hlt | ⟨heq, -⟩)
    · exact h1 (String.lt_iff_toList_lt.mp hlt)
    · exact h2 heq

instance : IsTotal (String × String) pairRel where
  total p q := by
    unfold pairRel
    rw [pairLE_iff, pairLE_iff]
    rcases lt_trichotomy p.1 q.1 with h | h | h
    · exact Or.inl (Or.inl h)
    · rcases le_total p.2 q.2 with h2 | h2
      · exact Or.inl (Or.inr ⟨h, h2⟩)
      · exact Or.inr (Or.inr ⟨h.symm, h2⟩)
    · exact Or.inr (Or.inl h)

instance : IsTrans (String × String) pairRel where
  trans p q r := by
    unfold pairRel
    rw [pairLE_iff, pairLE_iff, pairLE_iff]
    rintro (h1 | ⟨h1, h1v⟩) (h2 | ⟨h2, h2v⟩)
    · exact Or.inl (h1.trans h2)
    · exact Or.inl (h2 ▸ h1)
    · exact Or.inl (h1 ▸ h2)
    · exact Or.inr ⟨h1.trans h2, h1v.trans h2v⟩

/-- `tools.mapping_items`: return the mapping items, sorted if the
mapping's concrete type is exactly `dict` (`type(mapping) is dict`),
otherwise in the mapping's own iteration order. -/
def mapping_items (m : PyMapping) : List (String × String) :=
  if m.ty = PyMappingType.plainDict then List.insertionSort pairRel m.items
  else m.items

/-! ### tools.py: is_iterator / is_file_like -/

/-- A Python object as seen by the duck-typed helpers: which of the
relevant attributes (`__iter__`, `__next__`, `next`, `read`, `write`)
`hasattr` reports. -/
structure PyObject where
  hasIterAttr : Bool
  hasNextAttr : Bool
  hasPy2NextAttr : Bool
  hasReadAttr : Bool
  hasWriteAttr : Bool
deriving DecidableEq

/-- `tools.PY2`: the code under verification runs on Python 3. -/
def PY2 : Bool := false

/-- `tools.is_iterator`: `False` without `__iter__`; otherwise on
Python 2 whether `next` exists, on Python 3 whether `__next__` exists. -/
def is_iterator (obj : PyObject) : Bool :=
  if !obj.hasIterAttr then false
  else if PY2 then obj.hasPy2NextAttr
  else obj.hasNextAttr

/-- `tools.is_file_like`: `False` without `read` or `write`, `False` if
not `is_iterator`, else `True`. -/
def is_file_like (obj : PyObject) : Bool :=
  if !(obj.hasReadAttr || obj.hasWriteAttr) then false
  else if !(is_iterator obj) then false
  else true

/-- The attribute surface of a Python `list` such as `[1, 2, 3]`: it has
`__iter__` but none of `__next__`, `next`, `read`, `write`. -/
def pyList : PyObject :=
  { hasIterAttr := true, hasNextAttr := false, hasPy2NextAttr := false,
    hasReadAttr := false, hasWriteAttr := false }

/-- The attribute surface of a Python `str` such as `"foo"`: it has
`__iter__` but none of `__next__`, `next`, `read`, `write`. -/
def pyString : PyObject :=
  { hasIterAttr := true, hasNextAttr := false, hasPy2NextAttr := false,
    hasReadAttr := false, hasWriteAttr := false }

/-! ### Quoting / escaping engine (lang.py, modelled from the spec) -/

/-- A character of the "safe bareword" body: alphanumeric or underscore. -/
def isIdChar (c : Char) : Bool := c.isAlpha || c.isDigit || c = '_'

/-- A character that may start a "safe bareword": letter or underscore
(not a digit). -/
def isIdStart (c : Char) : Bool := c.isAlpha || c = '_'

/-- Modelled from the spec: the "safe bareword" pattern of the Quoting
Engine (§4.1, `lang.py` is not under `src/`): alphanumeric/underscore,
not starting with a digit. -/
def isSafeBareword (s : String) : Bool :=
  match s.data with
  | [] => false
  | c :: rest => isIdStart c && rest.all isIdChar

/-- One or more decimal digits. -/
def digits1 (cs : List Char) : Bool := !cs.isEmpty && cs.all Char.isDigit

/-- The numeral body after an optional leading minus sign:
`.digits` or `digits` or `digits.digits?`. -/
def isNumeralBody (cs : List Char) : Bool :=
  match cs with
  | '.' :: rest => digits1 rest
  | _ =>
    let intPart := cs.takeWhile Char.isDigit
    let rest := cs.dropWhile Char.isDigit
    !intPart.isEmpty &&
      (match rest with
       | [] => true
       | '.' :: frac => frac.all Char.isDigit
       | _ => false)

/-- Modelled from the spec: the signed/unsigned numeral pattern of the
Quoting Engine (§4.1, `lang.py` is not under `src/`). -/
def isNumeral (s : String) : Bool :=
  match s.data with
  | '-' :: rest => isNumeralBody rest
  | cs => isNumeralBody cs

/-- Modelled from the spec: an HTML-like label, a string that begins with
`<` and ends with `>` (§4.1, `lang.py` is not under `src/`). -/
def isHtmlLike (s : String) : Bool :=
  s.data.head? == some '<' && s.data.getLast? == some '>'

/-- Modelled from the spec: an already-double-quoted literal, a string of
length at least two that begins and ends with a double quote (§4.1,
`lang.py` is not under `src/`). -/
def isQuotedLiteral (s : String) : Bool :=
  decide (2 ≤ s.data.length) &&
    s.data.head? == some '"' && s.data.getLast? == some '"'

/-- Escape embedded double quotes with a backslash, leaving every other
character untouched. -/
def escapeQuotes (s : String) : String :=
  ⟨s.data.foldr (fun c acc => if c = '"' then '\\' :: '"' :: acc else c :: acc) []⟩

/-- Modelled from the spec: the Quoting Engine (§4.1, `lang.py` is not
under `src/`). An HTML-like label is passed through unescaped; a safe
bareword, numeral or pre-quoted literal is emitted unchanged; anything
else (the empty string included) is wrapped in double quotes with
embedded quotes escaped. -/
def quote (s : String) : String :=
  if isHtmlLike s then s
  else if isSafeBareword s || isNumeral s || isQuotedLiteral s then s
  else "\"" ++ escapeQuotes s ++ "\""

/-- Modelled from the spec: compound identifiers `node:port` and
`node:port:compass` are quoted component-wise and rejoined with colons
(§4.1, `lang.py` is not under `src/`). -/
def quote_edge (s : String) : String :=
  String.intercalate ":" ((s.splitOn ":").map quote)

/-! ### Attribute formatter (lang.py, modelled from the spec) -/

/-- Modelled from the spec: the space-joined `key=value` clause of the
Attribute Formatter (§4.2, `lang.py` is not under `src/`); each key and
value individually passes through the Quoting Engine. -/
def a_list (attrs : List (String × String)) : String :=
  String.intercalate " " (attrs.map (fun p => quote p.1 ++ "=" ++ quote p.2))

/-- Modelled from the spec: the bracketed attribute clause of the
Attribute Formatter (§4.2, `lang.py` is not under `src/`): the empty
string for an empty mapping, otherwise the space-joined `key=value`
pairs in `" [...]"`. -/
def attr_list (attrs : List (String × String)) : String :=
  if attrs.isEmpty then "" else " [" ++ a_list attrs ++ "]"

/-! ### Document model and renderer (dot.py, modelled from the spec) -/

/-- The kind of a document: undirected (`graph`) or directed
(`digraph`), fixed at creation. -/
inductive Kind where
  | undirected
  | directed
deriving DecidableEq

/-- The head keyword of the kind-specific header line. -/
def Kind.headKeyword : Kind → String
  | .undirected => "graph"
  | .directed => "digraph"

/-- The kind-specific edge connector, with its surrounding spaces. -/
def Kind.connector : Kind → String
  | .undirected => " -- "
  | .directed => " -> "

/-- The error taxonomy of §7: `ArgumentError` for a malformed call
shape, `ValidationError` for a semantic composition violation. -/
inductive GraphvizError where
  | ArgumentError (msg : String)
  | ValidationError (msg : String)
deriving DecidableEq

/-- One item of a document body: an already-rendered statement line, or
the lines of an embedded subgraph captured at embed time. The spec keeps
statements and embedded subgraphs as one positionally interleaved
sequence (§4.4 rule 5); §4.4 rule 1 and §9 fix the embedding semantics
to "exactly the statements present at call time", expanded exactly once
per embed call. -/
inductive BodyItem where
  | stmt (line : String)
  | subgraph (lines : List String)
deriving DecidableEq

/-- The text lines contributed by one body item, before indentation. -/
def itemLines : BodyItem → List String
  | .stmt l => [l]
  | .subgraph ls => ls

/-- Modelled from the spec: the Document of §3/§4.4 (`dot.py` is not
under `src/`): optional name, kind and strictness fixed at creation, an
optional comment, and the interleaved body of statements and embedded
subgraph snapshots. -/
structure Document where
  kind : Kind
  strict : Bool := false
  name : Option String := none
  comment : Option String := none
  body : List BodyItem := []
deriving DecidableEq

/-- The statement lines of a document, in call order. -/
def Document.stmtLines (d : Document) : List String :=
  d.body.filterMap (fun i => match i with | .stmt l => some l | _ => none)

/-- The embedded-subgraph list of a document: the captured line blocks,
in call order. -/
def Document.subgraphBlocks (d : Document) : List (List String) :=
  d.body.filterMap (fun i => match i with | .subgraph ls => some ls | _ => none)

/-- The comment line(s) of a document: `// text` when a comment is
present, nothing otherwise. -/
def Document.commentLines (d : Document) : List String :=
  match d.comment with
  | some c => ["// " ++ c]
  | none => []

/-- Modelled from the spec: the header line of §4.5 (`dot.py` is not
under `src/`): optional `strict `, the kind keyword, the optional quoted
name, and the opening brace. -/
def Document.headLine (d : Document) : String :=
  (if d.strict then "strict " else "") ++ d.kind.headKeyword ++
    (match d.name with | some n => " " ++ quote n | none => "") ++ " \x7b"

/-- The body lines of a document at depth 1: every line of every body
item, indented by one tab, in call order. -/
def Document.bodyLines (d : Document) : List String :=
  ((d.body.map itemLines).flatten).map (fun l => "\t" ++ l)

/-- Modelled from the spec: the lines a document contributes when
rendered as an embedded subgraph (§4.5, `dot.py` is not under `src/`):
its comment line if any, then `subgraph <name> {` (a bare `{` for an
anonymous subgraph), its body at depth 1, then the closing brace. -/
def Document.subgraphLines (d : Document) : List String :=
  d.commentLines ++
    [match d.name with | some n => "subgraph " ++ quote n ++ " \x7b" | none => "\x7b"] ++
    d.bodyLines ++ ["\x7d"]

/-- Modelled from the spec: the lines of the rendered root document
(§4.5, `dot.py` is not under `src/`). -/
def Document.renderLines (d : Document) : List String :=
  d.commentLines ++ [d.headLine] ++ d.bodyLines ++ ["\x7d"]

/-- Modelled from the spec: the rendered DOT source (§4.5, `dot.py` is
not under `src/`): the lines joined by single newlines, no trailing
newline. -/
def Document.source (d : Document) : String :=
  String.intercalate "\n" d.renderLines

/-! ### Mutation operations (dot.py, modelled from the spec)

Each operation returns the post-call document together with the error it
raised, if any; a raising call returns the document in the state it had
when the error was raised. -/

/-- Modelled from the spec: `addNode` (§4.4, `dot.py` is not under
`src/`): append a node statement built from the quoted name and the
formatted attributes. -/
def Document.addNode (d : Document) (n : String)
    (attrs : List (String × String)) : Document × Option GraphvizError :=
  ({ d with body := d.body ++ [.stmt (quote n ++ attr_list attrs)] }, none)

/-- Modelled from the spec: `addEdge` (§4.3/§4.4, `dot.py` is not under
`src/`): fewer than two endpoints fail with an `ArgumentError`;
otherwise the endpoints are quoted component-wise, joined by the
kind-specific connector, and appended with the formatted attributes. -/
def Document.addEdge (d : Document) (endpoints : List String)
    (attrs : List (String × String)) : Document × Option GraphvizError :=
  if endpoints.length < 2 then
    (d, some (.ArgumentError "edge statement needs at least 2 endpoints"))
  else
    ({ d with body := d.body ++
        [.stmt (String.intercalate d.kind.connector (endpoints.map quote_edge) ++
          attr_list attrs)] }, none)

/-- Modelled from the spec: the `attr` operation (§4.4, `dot.py` is not
under `src/`): with no block keyword, a plain `key=value` default line
is appended; with the keyword `graph`, `node` or `edge`, that block's
default-attribute statement is appended; any other keyword fails with a
`ValidationError`. An empty mapping appends nothing. -/
def Document.attr (d : Document) (kw : Option String)
    (attrs : List (String × String)) : Document × Option GraphvizError :=
  match kw with
  | none =>
    if attrs.isEmpty then (d, none)
    else ({ d with body := d.body ++ [.stmt (a_list attrs)] }, none)
  | some k =>
    if k = "graph" || k = "node" || k = "edge" then
      if attrs.isEmpty then (d, none)
      else ({ d with body := d.body ++ [.stmt (k ++ attr_list attrs)] }, none)
    else (d, some (.ValidationError "invalid attr call"))

/-- Modelled from the spec: `setDefaults(kind, attrs)` (§4.4, `dot.py`
is not under `src/`) is the keyword form of the `attr` operation. -/
def Document.setDefaults (d : Document) (kw : String)
    (attrs : List (String × String)) : Document × Option GraphvizError :=
  d.attr (some kw) attrs

/-- Modelled from the spec: the subgraph-composition operation `embed`
(§4.4, `dot.py` is not under `src/`). A strict-flagged document can
never be embedded; the kinds must match; on success the embedded
document's subgraph rendering, as of call time, is appended to the
body. Reflexive embedding is the ordinary case `sub = d` and captures
the statements present at call time (§4.4 rule 1, §9), so rendering
never recurses through the self-reference. -/
def Document.embed (d : Document) (sub : Document) :
    Document × Option GraphvizError :=
  if sub.strict then
    (d, some (.ValidationError "strict only allowed on the root document"))
  else if sub.kind ≠ d.kind then
    (d, some (.ValidationError "subgraph kind mismatch"))
  else
    ({ d with body := d.body ++ [.subgraph sub.subgraphLines] }, none)

/-- One mutation operation, for statements quantifying over all of
them. -/
inductive MutationOp where
  | node (n : String) (attrs : List (String × String))
  | edge (endpoints : List String) (attrs : List (String × String))
  | defaults (kw : String) (attrs : List (String × String))
  | attrOp (kw : Option String) (attrs : List (String × String))
  | embedOp (sub : Document)

/-- Run one mutation operation on a document. -/
def Document.applyOp (d : Document) : MutationOp → Document × Option GraphvizError
  | .node n attrs => d.addNode n attrs
  | .edge endpoints attrs => d.addEdge endpoints attrs
  | .defaults kw attrs => d.setDefaults kw attrs
  | .attrOp kw attrs => d.attr kw attrs
  | .embedOp sub => d.embed sub

/-! ### Claims -/

/-- `pairRel` on pairs implies `≤` on the keys. -/
theorem pairRel_key_le {a b : String × String} (h : pairRel a b) : a.1 ≤ b.1 := by
  rcases (pairLE_iff a b).mp h with h | ⟨h, _⟩
  · exact le_of_lt h
  · exact le_of_eq h

/-- C1: `mapping_items` emits a plain `dict`'s items as a permutation of
the items sorted ascending (in particular ascending by key), and emits
any other mapping's items — an insertion-order-preserving `OrderedDict`
included — exactly in the mapping's own iteration order. -/
theorem C1_mapping_items_order (m : PyMapping) :
    (m.ty = PyMappingType.plainDict →
      List.Sorted pairRel (mapping_items m) ∧
      List.Sorted (fun p q : String × String => p.1 ≤ q.1) (mapping_items m) ∧
      (mapping_items m).Perm m.items) ∧
    (m.ty ≠ PyMappingType.plainDict → mapping_items m = m.items) := by
  constructor
  · intro h
    have hs : List.Sorted pairRel (mapping_items m) := by
      unfold mapping_items
      rw [if_pos h]
      exact List.sorted_insertionSort pairRel m.items
    refine ⟨hs, List.Pairwise.imp (fun hab => pairRel_key_le hab) hs, ?_⟩
    unfold mapping_items
    rw [if_pos h]
    exact List.perm_insertionSort pairRel m.items
  · intro h
    unfold mapping_items
    rw [if_neg h]

/-- Witness for C1 at concrete inputs: the docstring's plain dict is
sorted, and an `OrderedDict` keeps its own order. -/
theorem C1_witness :
    List.Sorted pairRel
      (mapping_items ⟨PyMappingType.plainDict, [("spam", "0"), ("ham", "1"), ("eggs", "2")]⟩) ∧
    mapping_items ⟨PyMappingType.orderedDict, [("spam", "0"), ("ham", "1"), ("eggs", "2")]⟩ =
      [("spam", "0"), ("ham", "1"), ("eggs", "2")] :=
  ⟨((C1_mapping_items_order _).1 rfl).1,
   (C1_mapping_items_order _).2 (by decide)⟩

/-- C9: `mapping_items` sorts only when the concrete type is exactly
`dict`: a strict subclass of `dict` (ordered or not) and any other
mapping type are emitted in their own iteration order without sorting —
concretely, a `dict` subclass holding `b` before `a` stays unsorted
while the same items in a plain `dict` get sorted. -/
theorem C9_mapping_items_exact_dict_only (items : List (String × String)) :
    mapping_items ⟨PyMappingType.dictSubclass, items⟩ = items ∧
    (∀ ty : PyMappingType, ty ≠ PyMappingType.plainDict →
      mapping_items ⟨ty, items⟩ = items) ∧
    mapping_items ⟨PyMappingType.dictSubclass, [("b", "1"), ("a", "2")]⟩ =
      [("b", "1"), ("a", "2")] ∧
    mapping_items ⟨PyMappingType.plainDict, [("b", "1"), ("a", "2")]⟩ =
      [("a", "2"), ("b", "1")] := by
  refine ⟨?_, ?_, by decide, by decide⟩
  · simp [mapping_items]
  · intro ty h
    simp [mapping_items, h]

/-- Witness for C9 at a concrete input: an unordered-other-mapping type
also keeps its own order. -/
theorem C9_witness :
    mapping_items ⟨PyMappingType.otherMapping, [("b", "1"), ("a", "2")]⟩ =
      [("b", "1"), ("a", "2")] :=
  (C9_mapping_items_exact_dict_only [("b", "1"), ("a", "2")]).2.1
    PyMappingType.otherMapping (by decide)

/-- C10: on Python 3, `is_iterator obj` is true exactly when `obj` has
both `__iter__` and `__next__`; in particular it is false for lists and
strings (contrary to the docstring's `is_iterator([1, 2, 3])` example),
and `is_file_like` is false for any object lacking `__next__`. -/
theorem C10_is_iterator_iff (obj : PyObject) :
    (is_iterator obj = true ↔ obj.hasIterAttr = true ∧ obj.hasNextAttr = true) ∧
    is_iterator pyList = false ∧
    is_iterator pyString = false ∧
    (obj.hasNextAttr = false → is_file_like obj = false) := by
  refine ⟨?_, by decide, by decide, ?_⟩
  · cases hI : obj.hasIterAttr <;> cases hN : obj.hasNextAttr <;>
      simp [is_iterator, PY2, hI, hN]
  · intro h
    cases hR : obj.hasReadAttr <;> cases hW : obj.hasWriteAttr <;>
      cases hI : obj.hasIterAttr <;>
      simp [is_file_like, is_iterator, PY2, h, hR, hW, hI]

/-- Witness for C10 at a concrete input: a list is not file-like since
it lacks `__next__`. -/
theorem C10_witness : is_file_like pyList = false :=
  (C10_is_iterator_iff pyList).2.2.2 rfl

/-- C2: embedding a document in itself captures the statements present
at call time and never recurses through the self-reference; for an
empty, unnamed, non-strict undirected document the reflexive embedding
succeeds and the rendered source is exactly one empty nested block on
separate lines. -/
theorem C2_reflexive_embed (d : Document) (hk : d.kind = Kind.undirected)
    (hs : d.strict = false) (hn : d.name = none) (hc : d.comment = none)
    (hb : d.body = []) :
    (d.embed d).2 = none ∧
    (d.embed d).1.source = "graph \x7b\n\t\x7b\n\t\x7d\n\x7d" := by
  obtain ⟨kind, strict, name, comment, body⟩ := d
  dsimp only at hk hs hn hc hb
  subst hk
  subst hs
  subst hn
  subst hc
  subst hb
  exact ⟨rfl, rfl⟩

/-- Witness for C2 at the concrete input of the reflexive-subgraph
test: a fresh undirected document embedded in itself. -/
theorem C2_witness :
    (Document.embed { kind := Kind.undirected } { kind := Kind.undirected }).2 = none ∧
    (Document.embed { kind := Kind.undirected } { kind := Kind.undirected }).1.source =
      "graph \x7b\n\t\x7b\n\t\x7d\n\x7d" :=
  C2_reflexive_embed { kind := Kind.undirected } rfl rfl rfl rfl rfl

/-- C3: embedding a strict-flagged document always fails with the
`ValidationError` "strict only allowed on the root document", for every
embedding document and every strict subgraph. -/
theorem C3_embed_strict_fails (d sub : Document) (h : sub.strict = true) :
    (d.embed sub).2 =
      some (GraphvizError.ValidationError "strict only allowed on the root document") := by
  unfold Document.embed
  rw [if_pos h]

/-- Witness for C3 at a concrete input: an undirected document embedding
a strict undirected document. -/
theorem C3_witness :
    (Document.embed { kind := Kind.undirected }
        { kind := Kind.undirected, strict := true }).2 =
      some (GraphvizError.ValidationError "strict only allowed on the root document") :=
  C3_embed_strict_fails { kind := Kind.undirected }
    { kind := Kind.undirected, strict := true } rfl

/-- C4: embedding a document of the other kind fails with a
`ValidationError`, in both directions (the quantification over `d` and
`sub` covers directed-into-undirected and undirected-into-directed). -/
theorem C4_embed_kind_mismatch (d sub : Document) (h : d.kind ≠ sub.kind) :
    ∃ msg, (d.embed sub).2 = some (GraphvizError.ValidationError msg) := by
  unfold Document.embed
  by_cases hs : sub.strict = true
  · rw [if_pos hs]
    exact ⟨_, rfl⟩
  · rw [if_neg hs, if_pos (fun he => h he.symm)]
    exact ⟨_, rfl⟩

/-- Witness for C4 at concrete inputs, in both directions. -/
theorem C4_witness :
    (∃ msg, (Document.embed { kind := Kind.undirected } { kind := Kind.directed }).2 =
      some (GraphvizError.ValidationError msg)) ∧
    (∃ msg, (Document.embed { kind := Kind.directed } { kind := Kind.undirected }).2 =
      some (GraphvizError.ValidationError msg)) :=
  ⟨C4_embed_kind_mismatch _ _ (by decide), C4_embed_kind_mismatch _ _ (by decide)⟩

/-- C5: every mutation operation that reports an error leaves the
document unchanged — in particular its statement body and its
embedded-subgraph list are identical to their values before the call;
appending happens only on success. -/
theorem C5_atomicity (d : Document) (op : MutationOp)
    (h : (d.applyOp op).2.isSome = true) :
    (d.applyOp op).1 = d ∧
    (d.applyOp op).1.stmtLines = d.stmtLines ∧
    (d.applyOp op).1.subgraphBlocks = d.subgraphBlocks := by
  suffices hd : (d.applyOp op).1 = d by
    exact ⟨hd, by rw [hd], by rw [hd]⟩
  have key : (d.applyOp op).2 = none ∨ (d.applyOp op).1 = d := by
    cases op with
    | node n attrs => exact Or.inl rfl
    | edge endpoints attrs =>
      simp only [Document.applyOp, Document.addEdge]
      split
      · exact Or.inr rfl
      · exact Or.inl rfl
    | defaults kw attrs =>
      simp only [Document.applyOp, Document.setDefaults, Document.attr]
      split
      · split
        · exact Or.inl rfl
        · exact Or.inl rfl
      · exact Or.inr rfl
    | attrOp kw attrs =>
      cases kw with
      | none =>
        simp only [Document.applyOp, Document.attr]
        split
        · exact Or.inl rfl
        · exact Or.inl rfl
      | some k =>
        simp only [Document.applyOp, Document.attr]
        split
        · split
          · exact Or.inl rfl
          · exact Or.inl rfl
        · exact Or.inr rfl
    | embedOp sub =>
      simp only [Document.applyOp, Document.embed]
      split
      · exact Or.inr rfl
      · split
        · exact Or.inr rfl
        · exact Or.inl rfl
  rcases key with hk | hk
  · rw [hk] at h
    simp at h
  · exact hk

/-- Witness for C5 at a concrete failing input: embedding a strict
subgraph fails and leaves the document unchanged. -/
theorem C5_witness :
    (Document.applyOp { kind := Kind.undirected }
        (MutationOp.embedOp { kind := Kind.undirected, strict := true })).1 =
      { kind := Kind.undirected } :=
  (C5_atomicity { kind := Kind.undirected }
    (MutationOp.embedOp { kind := Kind.undirected, strict := true }) (by decide)).1

/-- C6: any string that begins with `<` and ends with `>` passes through
the Quoting Engine byte-for-byte, and a `label` attribute holding such a
value is rendered unmodified inside `label=<...>`. -/
theorem C6_html_label_passthrough (s : String)
    (h1 : s.data.head? = some '<') (h2 : s.data.getLast? = some '>') :
    quote s = s ∧ attr_list [("label", s)] = " [label=" ++ s ++ "]" := by
  have hh : isHtmlLike s = true := by
    simp [isHtmlLike, h1, h2]
  have hq : quote s = s := by
    unfold quote
    rw [if_pos hh]
  refine ⟨hq, ?_⟩
  have hlabel : quote "label" = "label" := by decide
  unfold attr_list a_list
  rw [if_neg (by simp)]
  simp only [List.map]
  rw [hlabel, hq]
  rfl

/-- Witness for C6 at a concrete input: the HTML-like label `<x>`. -/
theorem C6_witness :
    quote "<x>" = "<x>" ∧ attr_list [("label", "<x>")] = " [label=<x>]" :=
  C6_html_label_passthrough "<x>" rfl rfl

/-- C7: calling `attr` with no block keyword and the mapping
`{spam: eggs}` on an empty undirected document succeeds, and the
document then renders as `graph {\n\tspam=eggs\n}`. -/
theorem C7_attr_kw_none :
    (Document.attr { kind := Kind.undirected } none [("spam", "eggs")]).2 = none ∧
    (Document.attr { kind := Kind.undirected } none [("spam", "eggs")]).1.source =
      "graph \x7b\n\tspam=eggs\n\x7d" :=
  ⟨rfl, rfl⟩

/-- C8: embedding a named subgraph that carries a comment succeeds and
captures the comment as its own line immediately before the subgraph's
header line (both indented one tab deeper when rendered); concretely an
undirected document with one named, commented, empty subgraph renders
as `graph {\n\t// comment\n\tsubgraph name {\n\t}\n}`. -/
theorem C8_subgraph_comment (d sub : Document) (n c : String)
    (hn : sub.name = some n) (hc : sub.comment = some c)
    (hs : sub.strict = false) (hk : sub.kind = d.kind) :
    ((d.embed sub).2 = none ∧
      (d.embed sub).1.body = d.body ++
        [BodyItem.subgraph (("// " ++ c) :: ("subgraph " ++ quote n ++ " \x7b") ::
          (sub.bodyLines ++ ["\x7d"]))]) ∧
    (Document.embed { kind := Kind.undirected }
        { kind := Kind.undirected, name := some "name",
          comment := some "comment" }).1.source =
      "graph \x7b\n\t// comment\n\tsubgraph name \x7b\n\t\x7d\n\x7d" := by
  refine ⟨?_, rfl⟩
  have hemb : d.embed sub =
      ({ d with body := d.body ++ [BodyItem.subgraph sub.subgraphLines] }, none) := by
    unfold Document.embed
    rw [if_neg (by simp [hs]), if_neg (by simp [hk])]
  rw [hemb]
  refine ⟨rfl, ?_⟩
  dsimp only
  unfold Document.subgraphLines Document.commentLines
  rw [hn, hc]
  simp

/-- Witness for C8 at the concrete input of the commented-subgraph
test. -/
theorem C8_witness :
    (Document.embed { kind := Kind.undirected }
        { kind := Kind.undirected, name := some "name",
          comment := some "comment" }).2 = none :=
  ((C8_subgraph_comment { kind := Kind.undirected }
      { kind := Kind.undirected, name := some "name", comment := some "comment" }
      "name" "comment" rfl rfl rfl rfl).1).1

end GraphvizSpec
